import Mathlib

/-!
Verification of the SRX security-zone rollout helper (`src/files/python/firewall.py`,
driven by `src/files/python/main.py`).

The Python code is shallowly embedded as follows.

* The pydantic data models (`Host`, `Credentials`, `InboundTraffic`,
  `SecurityZones`, `Configuration`) become Lean structures.  The pydantic
  classes in the source declare fields only — they contain no custom
  validators — so their construction functions (`mkCredentials`,
  `mkConfiguration`) validate field types only, which the Lean types already
  guarantee, and therefore always succeed.

* The external PyEZ device library (`Device`, `Config`) is modelled by a
  per-host `HostBehavior` oracle describing what each blocking device call
  does (succeed, return a value, or raise), and every call the helper makes
  is recorded as an `Event` in a trace.  A device's configuration state
  (`DeviceState`: active and candidate configuration, abstracted as `Nat`
  identifiers) is obtained by folding the trace with `applyEvent`:
  a successful `load` replaces the candidate, a successful `commit` activates
  the candidate, a successful `rollback` resets the candidate to the active
  configuration, and no other call touches configuration state.

* `SrxHelper.security_zones` (firewall.py lines 118-158) and
  `SrxHelper.get_status` (lines 94-116) become trace-producing functions:
  `runHost` / `getStatusHost` mirror one iteration of the respective `for`
  loop, and `runFleet` mirrors the surrounding `try`/`for`/`except` shape:
  the loop body runs host by host; an exception from the tuple
  `(ConnectError, ConnectUnknownHostError, ConnectTimeoutError,
  ConnectRefusedError, ConnectAuthError)` is caught, logged via
  `_print_error`, and re-raised as a bare `SystemExit`; any other exception
  propagates out uncaught.  `exitStatus`/`processExitCode` encode Python's
  process-exit semantics: a `SystemExit` whose code is `None` exits with
  status 0, an uncaught exception exits with status 1.
-/

/-- Data model for a device (firewall.py lines 32-36). -/
structure Host where
  name : String
  ip : String
deriving Repr, DecidableEq

/-- Data model for authentication (firewall.py lines 39-44).
`password` and `sshkey` both default to `None` in the source. -/
structure Credentials where
  username : String
  password : Option String
  sshkey : Option String
deriving Repr, DecidableEq

/-- Allowed types of services and protocols (firewall.py lines 47-51). -/
structure InboundTraffic where
  system_services : List String
  protocols : List String
deriving Repr, DecidableEq

/-- Data model for Security Zone configuration (firewall.py lines 54-60). -/
structure SecurityZones where
  app_tracking : Option Bool
  inbound_traffic : Option InboundTraffic
  interfaces : List String
  name : String
deriving Repr, DecidableEq

/-- Device configuration (firewall.py lines 63-66): a bare pydantic model
holding `zones: List[SecurityZones]`. -/
structure Configuration where
  zones : List SecurityZones
deriving Repr, DecidableEq

/-- Pydantic construction of `Configuration` (firewall.py lines 63-66).
The class declares the `zones` field and nothing else: there is no
validator in the source, so construction from a well-typed zones list
always succeeds. -/
def mkConfiguration (zones : List SecurityZones) : Except String Configuration :=
  Except.ok { zones := zones }

/-- Pydantic construction of `Credentials` (firewall.py lines 39-44).
Both `password` and `sshkey` are `Optional[...] = None` and no validator
exists in the source, so construction from a well-typed triple always
succeeds, including with both secrets absent. -/
def mkCredentials (username : String) (password sshkey : Option String) :
    Except String Credentials :=
  Except.ok { username := username, password := password, sshkey := sshkey }

/-- Keyword arguments handed to the PyEZ `Device(...)` constructor. -/
structure DeviceArgs where
  host : String
  user : String
  passwd : Option String
  ssh_private_key_file : Option String
  gather_facts : Bool
deriving Repr, DecidableEq

/-- `SrxHelper._connection_builder` (firewall.py lines 76-87): builds the
device connection object, passing the credential fields straight through. -/
def connection_builder (credentials : Credentials) (each : Host) : DeviceArgs :=
  { host := each.ip
    user := credentials.username
    passwd := credentials.password
    ssh_private_key_file := credentials.sshkey
    gather_facts := false }

/-- The connection-error kinds of the `except` tuple in firewall.py
lines 105-111 and 147-153. -/
inductive ConnKind where
  | unreachable
  | unknownHost
  | timeout
  | refused
  | authFailed
deriving Repr, DecidableEq

/-- A Python exception as far as the helper can distinguish them:
either one of the connection errors named in the `except` tuple, or any
other exception (load errors, commit errors, ...), identified by an
arbitrary code. -/
inductive PyError where
  | connect (kind : ConnKind)
  | other (code : Nat)
deriving Repr, DecidableEq

/-- Whether the `except` tuple of firewall.py lines 105-111 / 147-153
catches the exception. -/
def PyError.isConn : PyError → Bool
  | .connect _ => true
  | .other _ => false

/-- One observable call made by the helper, recorded in order.  The `ok`
flag on `loadEv`, `commitEv` and `rollbackEv` records whether the device
call succeeded (`true`) or raised (`false`); `cand` on a successful load is
the candidate configuration produced by loading the rendered template. -/
inductive Event where
  | openEv (host : String)
  | printEv (host : String)
  | loadEv (host : String) (ok : Bool) (cand : Nat)
  | pdiffEv (host : String)
  | commitCheckEv (host : String)
  | commitEv (host : String) (ok : Bool)
  | rollbackEv (host : String) (ok : Bool)
  | closeEv (host : String)
  | reportEv
deriving Repr, DecidableEq

/-- Number of events in a trace satisfying a predicate. -/
def countEv (p : Event → Bool) (tr : List Event) : Nat :=
  (tr.filter p).length

def isOpenOf (h : String) : Event → Bool
  | .openEv h' => h' = h
  | _ => false

def isAnyOpen : Event → Bool
  | .openEv _ => true
  | _ => false

def isCloseOf (h : String) : Event → Bool
  | .closeEv h' => h' = h
  | _ => false

def isLoadOf (h : String) : Event → Bool
  | .loadEv h' _ _ => h' = h
  | _ => false

def isPdiffOf (h : String) : Event → Bool
  | .pdiffEv h' => h' = h
  | _ => false

def isCheckOf (h : String) : Event → Bool
  | .commitCheckEv h' => h' = h
  | _ => false

def isCommitOf (h : String) : Event → Bool
  | .commitEv h' _ => h' = h
  | _ => false

def isRollbackOf (h : String) : Event → Bool
  | .rollbackEv h' _ => h' = h
  | _ => false

def isReport : Event → Bool
  | .reportEv => true
  | _ => false

/-- Events that are configuration operations on a device (load, commit or
rollback, whether they succeed or raise). -/
def isConfigOp : Event → Bool
  | .loadEv _ _ _ => true
  | .commitEv _ _ => true
  | .rollbackEv _ _ => true
  | _ => false

/-- The configuration state of one device: the active configuration and the
candidate configuration, abstracted as identifiers. -/
structure DeviceState where
  active : Nat
  candidate : Nat
deriving Repr, DecidableEq

/-- Effect of one recorded call on the per-device configuration states
(`σ` maps a host name to its device's state).  A successful load replaces
the candidate, a successful commit activates the candidate, a successful
rollback resets the candidate to the active configuration; every other
call — open, print, pdiff, commit-check, close, error reporting, and any
failed load/commit/rollback — leaves configuration state unchanged. -/
def applyEvent (σ : String → DeviceState) : Event → String → DeviceState
  | .loadEv h true c =>
      fun h' => if h' = h then { σ h' with candidate := c } else σ h'
  | .commitEv h true =>
      fun h' => if h' = h then { active := (σ h').candidate, candidate := (σ h').candidate }
                else σ h'
  | .rollbackEv h true =>
      fun h' => if h' = h then { σ h' with candidate := (σ h').active } else σ h'
  | _ => fun h' => σ h'

/-- Device configuration states after a trace of calls. -/
def applyTrace (σ : String → DeviceState) (tr : List Event) : String → DeviceState :=
  tr.foldl applyEvent σ

/-- What each blocking device call does for one host: `none` means the call
succeeds, `some e` means it raises `e`.  `loadedCandidate` is the candidate
configuration after a successful template load, `diffNonEmpty` the
truthiness of `pdiff()`, `checkResult` the boolean returned by a
non-raising `commit_check()`. -/
structure HostBehavior where
  openErr : Option PyError
  loadErr : Option PyError
  loadedCandidate : Nat
  diffErr : Option PyError
  diffNonEmpty : Bool
  checkErr : Option PyError
  checkResult : Bool
  commitErr : Option PyError
  rollbackErr : Option PyError
  closeErr : Option PyError
deriving Repr, DecidableEq

/-- One iteration of the `for each in self.inventory` loop of
`SrxHelper.security_zones` (firewall.py lines 123-145): open the
connection, print the success message, load the rendered template as a
candidate, evaluate `pdiff()` (and evaluate it a second time when it is
truthy, lines 137-138), run `commit_check()` and commit or roll back on its
boolean (lines 140-143), then close the session (line 145).  Returns the
trace of calls together with the exception the iteration raised, if any.
There is no `try`/`finally` in the source: an exception aborts the
iteration exactly where it occurs. -/
def runHost (each : Host) (b : HostBehavior) : List Event × Option PyError :=
  match b.openErr with
  | some e => ([Event.openEv each.name], some e)
  | none =>
    let tr0 := [Event.openEv each.name, Event.printEv each.name]
    match b.loadErr with
    | some e => (tr0 ++ [Event.loadEv each.name false 0], some e)
    | none =>
      let tr1 := tr0 ++ [Event.loadEv each.name true b.loadedCandidate]
      match b.diffErr with
      | some e => (tr1 ++ [Event.pdiffEv each.name], some e)
      | none =>
        let tr2 := tr1 ++ (if b.diffNonEmpty
          then [Event.pdiffEv each.name, Event.pdiffEv each.name]
          else [Event.pdiffEv each.name])
        match b.checkErr with
        | some e => (tr2 ++ [Event.commitCheckEv each.name], some e)
        | none =>
          let tr3 := tr2 ++ [Event.commitCheckEv each.name]
          if b.checkResult then
            match b.commitErr with
            | some e => (tr3 ++ [Event.commitEv each.name false], some e)
            | none =>
              match b.closeErr with
              | some e =>
                  (tr3 ++ [Event.commitEv each.name true, Event.closeEv each.name], some e)
              | none =>
                  (tr3 ++ [Event.commitEv each.name true, Event.closeEv each.name], none)
          else
            match b.rollbackErr with
            | some e => (tr3 ++ [Event.rollbackEv each.name false], some e)
            | none =>
              match b.closeErr with
              | some e =>
                  (tr3 ++ [Event.rollbackEv each.name true, Event.closeEv each.name], some e)
              | none =>
                  (tr3 ++ [Event.rollbackEv each.name true, Event.closeEv each.name], none)

/-- One iteration of the `for each in self.inventory` loop of
`SrxHelper.get_status` (firewall.py lines 99-103): open the connection,
print the success message, close the session.  No configuration call is
made. -/
def getStatusHost (each : Host) (b : HostBehavior) : List Event × Option PyError :=
  match b.openErr with
  | some e => ([Event.openEv each.name], some e)
  | none =>
    match b.closeErr with
    | some e => ([Event.openEv each.name, Event.printEv each.name, Event.closeEv each.name],
                 some e)
    | none => ([Event.openEv each.name, Event.printEv each.name, Event.closeEv each.name],
               none)

/-- How a fleet run ends: the loop completed normally; a connection error
was caught and re-raised as a bare `SystemExit` (carrying Python's
`SystemExit.code`, which is `None` for a bare `raise SystemExit`, and the
chained cause); or an exception outside the `except` tuple propagated
uncaught. -/
inductive Outcome where
  | completed
  | systemExit (code : Option Nat) (cause : PyError)
  | uncaught (e : PyError)
deriving Repr, DecidableEq

/-- Python's process exit status for a `SystemExit` with the given `code`
attribute: `None` exits with status 0, an integer exits with that
status. -/
def exitStatus : Option Nat → Nat
  | none => 0
  | some n => n

/-- Python's process exit status for each run outcome: normal completion
exits 0, `SystemExit` exits with `exitStatus` of its code, and an uncaught
exception makes the interpreter print a traceback and exit 1. -/
def processExitCode : Outcome → Nat
  | .completed => 0
  | .systemExit c _ => exitStatus c
  | .uncaught _ => 1

/-- The shared `try`/`for`/`except` shape of both helper methods
(firewall.py lines 97-116 and 121-158): run the loop body host by host in
inventory order; when an iteration raises an exception from the `except`
tuple, call `_print_error` (lines 89-92, recorded as `reportEv`) and
`raise SystemExit from response_error` (a bare `SystemExit`, code `None`);
when it raises anything else, the exception propagates uncaught.  Either
way no later host is processed. -/
def runFleet (runOne : Host → HostBehavior → List Event × Option PyError) :
    List (Host × HostBehavior) → List Event × Outcome
  | [] => ([], Outcome.completed)
  | (h, b) :: rest =>
    match runOne h b with
    | (tr, none) =>
      let r := runFleet runOne rest
      (tr ++ r.1, r.2)
    | (tr, some e) =>
      if e.isConn then (tr ++ [Event.reportEv], Outcome.systemExit none e)
      else (tr, Outcome.uncaught e)

/-- `SrxHelper.security_zones` (firewall.py lines 118-158) over an
inventory paired with each host's device behavior. -/
def security_zones (inventory : List (Host × HostBehavior)) : List Event × Outcome :=
  runFleet runHost inventory

/-- `SrxHelper.get_status` (firewall.py lines 94-116) over an inventory
paired with each host's device behavior. -/
def get_status (inventory : List (Host × HostBehavior)) : List Event × Outcome :=
  runFleet getStatusHost inventory

/-! ### Concrete fixtures -/

/-- The first Scenario-A host. -/
def fw1 : Host := { name := "fw1", ip := "10.0.0.1" }

/-- The second Scenario-A host. -/
def fw2 : Host := { name := "fw2", ip := "10.0.0.2" }

/-- Behavior of a fully healthy device: every call succeeds, the diff is
non-empty, `commit_check` returns true. -/
def okBehavior : HostBehavior :=
  { openErr := none, loadErr := none, loadedCandidate := 1, diffErr := none,
    diffNonEmpty := true, checkErr := none, checkResult := true,
    commitErr := none, rollbackErr := none, closeErr := none }

/-- Behavior of a device whose `commit_check` returns false; every call
succeeds. -/
def rolledBehavior : HostBehavior := { okBehavior with checkResult := false }

/-- Behavior of a device whose `open` raises an unreachable connection
error. -/
def unreachableBehavior : HostBehavior :=
  { okBehavior with openErr := some (PyError.connect ConnKind.unreachable) }

/-- Behavior of a device whose configuration load raises a non-connection
error (e.g. a `ConfigLoadError`). -/
def loadErrBehavior : HostBehavior :=
  { okBehavior with loadErr := some (PyError.other 7) }

/-- Behavior of a device whose `commit_check` call raises a non-connection
error. -/
def checkErrBehavior : HostBehavior :=
  { okBehavior with checkErr := some (PyError.other 9) }

/-- Behavior of a device whose `commit` call raises a non-connection error
(e.g. a `CommitError`). -/
def commitErrBehavior : HostBehavior :=
  { okBehavior with commitErr := some (PyError.other 11) }

/-- Events that change some device's active configuration: only a
successful commit does. -/
def isActiveMut : Event → Bool
  | .commitEv _ true => true
  | _ => false

/-! ### Helper lemmas -/

/-- Every iteration of the `security_zones` loop calls `open` exactly
once, whichever path it takes. -/
theorem runHost_open_count (each : Host) (b : HostBehavior) :
    countEv isAnyOpen (runHost each b).1 = 1 := by
  obtain ⟨oe, le, lc, de, dn, ce, cr, me, re, cle⟩ := b
  cases oe <;> cases le <;> cases de <;> cases dn <;> cases ce <;> cases cr <;>
    cases me <;> cases re <;> cases cle <;>
      simp [runHost, countEv, isAnyOpen]

/-- The loop body itself never calls `_print_error`: error reporting only
happens in the `except` handler. -/
theorem runHost_no_report (each : Host) (b : HostBehavior) :
    countEv isReport (runHost each b).1 = 0 := by
  obtain ⟨oe, le, lc, de, dn, ce, cr, me, re, cle⟩ := b
  cases oe <;> cases le <;> cases de <;> cases dn <;> cases ce <;> cases cr <;>
    cases me <;> cases re <;> cases cle <;>
      simp [runHost, countEv, isReport]

/-- Unfolding of a fleet run whose first host's iteration succeeds. -/
theorem runFleet_cons_ok (f : Host → HostBehavior → List Event × Option PyError)
    (h : Host) (b : HostBehavior) (rest : List (Host × HostBehavior))
    (hok : (f h b).2 = none) :
    runFleet f ((h, b) :: rest) =
      ((f h b).1 ++ (runFleet f rest).1, (runFleet f rest).2) := by
  rcases hf : f h b with ⟨tr, err⟩
  rw [hf] at hok
  simp only at hok
  subst hok
  simp [runFleet, hf]

/-- Unfolding of a fleet run whose first host's iteration raises a
connection error: it is reported and the run ends in a bare
`SystemExit`. -/
theorem runFleet_cons_conn (f : Host → HostBehavior → List Event × Option PyError)
    (h : Host) (b : HostBehavior) (rest : List (Host × HostBehavior)) (e : PyError)
    (herr : (f h b).2 = some e) (hconn : e.isConn = true) :
    runFleet f ((h, b) :: rest) =
      ((f h b).1 ++ [Event.reportEv], Outcome.systemExit none e) := by
  rcases hf : f h b with ⟨tr, err⟩
  rw [hf] at herr
  simp only at herr
  subst herr
  simp [runFleet, hf, hconn]

/-- Unfolding of a fleet run whose first host's iteration raises an
exception outside the `except` tuple: it propagates uncaught and
unreported. -/
theorem runFleet_cons_uncaught (f : Host → HostBehavior → List Event × Option PyError)
    (h : Host) (b : HostBehavior) (rest : List (Host × HostBehavior)) (e : PyError)
    (herr : (f h b).2 = some e) (hconn : e.isConn = false) :
    runFleet f ((h, b) :: rest) = ((f h b).1, Outcome.uncaught e) := by
  rcases hf : f h b with ⟨tr, err⟩
  rw [hf] at herr
  simp only at herr
  subst herr
  simp [runFleet, hf, hconn]

/-- A call that is not a successful commit leaves every device's active
configuration unchanged. -/
theorem applyEvent_active (σ : String → DeviceState) (ev : Event) (h' : String)
    (h : isActiveMut ev = false) : (applyEvent σ ev h').active = (σ h').active := by
  cases ev with
  | loadEv hn ok c =>
      cases ok
      · rfl
      · simp only [applyEvent]
        split <;> rfl
  | commitEv hn ok =>
      cases ok
      · rfl
      · exact absurd h (by simp [isActiveMut])
  | rollbackEv hn ok =>
      cases ok
      · rfl
      · simp only [applyEvent]
        split <;> rfl
  | openEv hn => rfl
  | printEv hn => rfl
  | pdiffEv hn => rfl
  | commitCheckEv hn => rfl
  | closeEv hn => rfl
  | reportEv => rfl

/-- A trace with no successful commit leaves every device's active
configuration unchanged. -/
theorem applyTrace_active (tr : List Event) (σ : String → DeviceState) (h' : String)
    (h : ∀ ev ∈ tr, isActiveMut ev = false) :
    (applyTrace σ tr h').active = (σ h').active := by
  induction tr generalizing σ with
  | nil => rfl
  | cons ev tl ih =>
      have h1 := h ev (List.mem_cons_self ev tl)
      have h2 : ∀ e ∈ tl, isActiveMut e = false :=
        fun e he => h e (List.mem_cons_of_mem _ he)
      calc (applyTrace σ (ev :: tl) h').active
          = (applyTrace (applyEvent σ ev) tl h').active := rfl
        _ = (applyEvent σ ev h').active := ih (applyEvent σ ev) h2
        _ = (σ h').active := applyEvent_active σ ev h' h1

/-- A call that is not a configuration operation leaves every device's
state unchanged. -/
theorem applyEvent_id (σ : String → DeviceState) (ev : Event)
    (h : isConfigOp ev = false) : applyEvent σ ev = σ := by
  cases ev with
  | loadEv hn ok c => exact absurd h (by simp [isConfigOp])
  | commitEv hn ok => exact absurd h (by simp [isConfigOp])
  | rollbackEv hn ok => exact absurd h (by simp [isConfigOp])
  | openEv hn => rfl
  | printEv hn => rfl
  | pdiffEv hn => rfl
  | commitCheckEv hn => rfl
  | closeEv hn => rfl
  | reportEv => rfl

/-- A trace with no configuration operation leaves every device's state
unchanged. -/
theorem applyTrace_id (tr : List Event) (σ : String → DeviceState)
    (h : ∀ ev ∈ tr, isConfigOp ev = false) : applyTrace σ tr = σ := by
  induction tr generalizing σ with
  | nil => rfl
  | cons ev tl ih =>
      have h1 := h ev (List.mem_cons_self ev tl)
      have h2 : ∀ e ∈ tl, isConfigOp e = false :=
        fun e he => h e (List.mem_cons_of_mem _ he)
      calc applyTrace σ (ev :: tl)
          = applyTrace (applyEvent σ ev) tl := rfl
        _ = applyEvent σ ev := ih (applyEvent σ ev) h2
        _ = σ := applyEvent_id σ ev h1

/-- Event counts add up over concatenated traces. -/
theorem countEv_append (p : Event → Bool) (t1 t2 : List Event) :
    countEv p (t1 ++ t2) = countEv p t1 + countEv p t2 := by
  simp [countEv, List.filter_append]

/-- A trace counting no successful commit leaves active configurations
unchanged. -/
theorem applyTrace_active_of_count (tr : List Event) (σ : String → DeviceState)
    (h' : String) (h : countEv isActiveMut tr = 0) :
    (applyTrace σ tr h').active = (σ h').active := by
  apply applyTrace_active
  intro ev hev
  simp only [countEv, List.length_eq_zero, List.filter_eq_nil_iff] at h
  simpa using h ev hev

/-- Unless every step up to validation succeeds and `commit_check` returns
true, the iteration performs no successful commit. -/
theorem runHost_activeMut_count_zero (each : Host) (b : HostBehavior)
    (h : ¬(b.openErr = none ∧ b.loadErr = none ∧ b.diffErr = none ∧
           b.checkErr = none ∧ b.checkResult = true)) :
    countEv isActiveMut (runHost each b).1 = 0 := by
  obtain ⟨oe, le, lc, de, dn, ce, cr, me, re, cle⟩ := b
  simp only at h
  cases oe <;> cases le <;> cases de <;> cases dn <;> cases ce <;> cases cr <;>
    cases me <;> cases re <;> cases cle <;>
      simp_all [runHost, countEv, isActiveMut]

/-- An iteration in which every device call succeeds raises nothing. -/
theorem runHost_no_err (each : Host) (b : HostBehavior)
    (ho : b.openErr = none) (hl : b.loadErr = none) (hd : b.diffErr = none)
    (hc : b.checkErr = none)
    (hcommit : b.checkResult = true → b.commitErr = none)
    (hroll : b.checkResult = false → b.rollbackErr = none)
    (hcl : b.closeErr = none) :
    (runHost each b).2 = none := by
  obtain ⟨oe, le, lc, de, dn, ce, cr, me, re, cle⟩ := b
  simp only at ho hl hd hc hcommit hroll hcl
  subst ho; subst hl; subst hd; subst hc; subst hcl
  cases cr with
  | true =>
      have := hcommit rfl
      subst this
      cases dn <;> simp [runHost]
  | false =>
      have := hroll rfl
      subst this
      cases dn <;> simp [runHost]

/-! ### Claims -/

/-- C6 counterexample: two distinct zones sharing the name "trust" are
accepted by `Configuration` construction — the claim that such an input is
rejected at construction time is false. -/
theorem C6_counterexample :
    ({ app_tracking := some false, inbound_traffic := none,
       interfaces := ["ge-0/0/0"], name := "trust" } : SecurityZones).name =
      ({ app_tracking := some false, inbound_traffic := none,
         interfaces := ["ge-0/0/1"], name := "trust" } : SecurityZones).name ∧
    ({ app_tracking := some false, inbound_traffic := none,
       interfaces := ["ge-0/0/0"], name := "trust" } : SecurityZones) ≠
      ({ app_tracking := some false, inbound_traffic := none,
         interfaces := ["ge-0/0/1"], name := "trust" } : SecurityZones) ∧
    mkConfiguration
      [{ app_tracking := some false, inbound_traffic := none,
         interfaces := ["ge-0/0/0"], name := "trust" },
       { app_tracking := some false, inbound_traffic := none,
         interfaces := ["ge-0/0/1"], name := "trust" }] =
      Except.ok
        { zones :=
            [{ app_tracking := some false, inbound_traffic := none,
               interfaces := ["ge-0/0/0"], name := "trust" },
             { app_tracking := some false, inbound_traffic := none,
               interfaces := ["ge-0/0/1"], name := "trust" }] } := by
  refine ⟨rfl, ?_, rfl⟩
  decide

/-- C6 amended: the `Configuration` pydantic model of firewall.py lines
63-66 has no validator, so construction accepts every zones list — zone
name uniqueness is not enforced at construction (nor anywhere else). -/
theorem C6_amended (zones : List SecurityZones) :
    mkConfiguration zones = Except.ok { zones := zones } := rfl

/-- C7 counterexample: `Credentials` construction with neither password
nor ssh key succeeds — the claim that such construction is rejected is
false. -/
theorem C7_counterexample :
    mkCredentials "admin" none none =
      Except.ok { username := "admin", password := none, sshkey := none } := rfl

/-- C7 amended: `Credentials` (firewall.py lines 39-44) has no validator,
so every well-typed combination is accepted, including both secrets
absent; and `_connection_builder` (lines 76-87) passes both `password` and
`sshkey` through to the device connection unchanged, with no precedence
logic of its own. -/
theorem C7_amended (username : String) (password sshkey : Option String) (each : Host) :
    mkCredentials username password sshkey =
      Except.ok { username := username, password := password, sshkey := sshkey } ∧
    (connection_builder
        { username := username, password := password, sshkey := sshkey } each).passwd =
      password ∧
    (connection_builder
        { username := username, password := password, sshkey := sshkey }
        each).ssh_private_key_file = sshkey :=
  ⟨rfl, rfl, rfl⟩

/-- C9: for every host whose transaction passes open, load and the diff
request without an exception, `pdiff` is evaluated twice when the diff is
non-empty and once when it is empty (firewall.py lines 137-138), and the
`commit_check` validation call is made exactly once in either case — the
diff never gates validation. -/
theorem C9_theorem (each : Host) (b : HostBehavior)
    (ho : b.openErr = none) (hl : b.loadErr = none) (hd : b.diffErr = none) :
    countEv (isPdiffOf each.name) (runHost each b).1 =
      (if b.diffNonEmpty then 2 else 1) ∧
    countEv (isCheckOf each.name) (runHost each b).1 = 1 := by
  obtain ⟨oe, le, lc, de, dn, ce, cr, me, re, cle⟩ := b
  simp only at ho hl hd
  subst ho; subst hl; subst hd
  cases dn <;> cases ce <;> cases cr <;> cases me <;> cases re <;> cases cle <;>
    simp [runHost, countEv, isPdiffOf, isCheckOf]

/-- C9 witness: a healthy host with a non-empty diff evaluates `pdiff`
twice and `commit_check` once. -/
theorem C9_witness :
    countEv (isPdiffOf "fw1") (runHost fw1 okBehavior).1 = 2 ∧
    countEv (isCheckOf "fw1") (runHost fw1 okBehavior).1 = 1 := by
  have h := C9_theorem fw1 okBehavior rfl rfl rfl
  simpa [fw1, okBehavior] using h

/-- C3: for every host whose transaction reaches validation and whose
`commit_check` returns true, `commit` is invoked exactly once and
`rollback` is never invoked in that iteration (firewall.py lines
140-143). -/
theorem C3_theorem (each : Host) (b : HostBehavior)
    (ho : b.openErr = none) (hl : b.loadErr = none) (hd : b.diffErr = none)
    (hc : b.checkErr = none) (hres : b.checkResult = true) :
    countEv (isCommitOf each.name) (runHost each b).1 = 1 ∧
    countEv (isRollbackOf each.name) (runHost each b).1 = 0 := by
  obtain ⟨oe, le, lc, de, dn, ce, cr, me, re, cle⟩ := b
  simp only at ho hl hd hc hres
  subst ho; subst hl; subst hd; subst hc; subst hres
  cases dn <;> cases me <;> cases re <;> cases cle <;>
    simp [runHost, countEv, isCommitOf, isRollbackOf]

/-- C3 witness: the healthy host commits exactly once and never rolls
back. -/
theorem C3_witness :
    countEv (isCommitOf "fw1") (runHost fw1 okBehavior).1 = 1 ∧
    countEv (isRollbackOf "fw1") (runHost fw1 okBehavior).1 = 0 := by
  have h := C3_theorem fw1 okBehavior rfl rfl rfl rfl rfl
  simpa [fw1] using h

/-- C2: for every host whose transaction reaches validation, whose
`commit_check` returns false, and whose rollback and close calls succeed,
`rollback` is invoked exactly once, `commit` is never invoked, the
device's active configuration is unchanged by the whole iteration, and the
run continues with the remaining hosts (firewall.py lines 140-145). -/
theorem C2_theorem (each : Host) (b : HostBehavior) (rest : List (Host × HostBehavior))
    (ho : b.openErr = none) (hl : b.loadErr = none) (hd : b.diffErr = none)
    (hc : b.checkErr = none) (hres : b.checkResult = false)
    (hr : b.rollbackErr = none) (hcl : b.closeErr = none) :
    countEv (isRollbackOf each.name) (runHost each b).1 = 1 ∧
    countEv (isCommitOf each.name) (runHost each b).1 = 0 ∧
    (∀ (σ : String → DeviceState) (h' : String),
      (applyTrace σ (runHost each b).1 h').active = (σ h').active) ∧
    security_zones ((each, b) :: rest) =
      ((runHost each b).1 ++ (security_zones rest).1, (security_zones rest).2) := by
  have hmut : countEv isActiveMut (runHost each b).1 = 0 :=
    runHost_activeMut_count_zero each b (by simp [hres])
  have hok : (runHost each b).2 = none :=
    runHost_no_err each b ho hl hd hc
      (fun h => absurd (hres ▸ h) (by simp)) (fun _ => hr) hcl
  refine ⟨?_, ?_, fun σ h' => applyTrace_active_of_count _ σ h' hmut, ?_⟩
  · obtain ⟨oe, le, lc, de, dn, ce, cr, me, re, cle⟩ := b
    simp only at ho hl hd hc hres hr hcl
    subst ho; subst hl; subst hd; subst hc; subst hres; subst hr; subst hcl
    cases dn <;> simp [runHost, countEv, isRollbackOf]
  · obtain ⟨oe, le, lc, de, dn, ce, cr, me, re, cle⟩ := b
    simp only at ho hl hd hc hres hr hcl
    subst ho; subst hl; subst hd; subst hc; subst hres; subst hr; subst hcl
    cases dn <;> simp [runHost, countEv, isCommitOf]
  · simpa [security_zones] using runFleet_cons_ok runHost each b rest hok

/-- C2 witness: a host whose validation returns false rolls back once,
never commits, leaves the active configuration untouched, and the run
moves on. -/
theorem C2_witness :
    countEv (isRollbackOf "fw1") (runHost fw1 rolledBehavior).1 = 1 ∧
    countEv (isCommitOf "fw1") (runHost fw1 rolledBehavior).1 = 0 := by
  have h := C2_theorem fw1 rolledBehavior [] rfl rfl rfl rfl rfl rfl rfl
  exact ⟨by simpa [fw1] using h.1, by simpa [fw1] using h.2.1⟩

/-- C1 counterexample: a host whose open succeeds but whose configuration
load raises is processed by `security_zones`, yet `close` is never invoked
for it — there is no scoped acquisition in the source, so the
"every exit path" part of the claim is false. -/
theorem C1_counterexample :
    countEv isAnyOpen (security_zones [(fw1, loadErrBehavior)]).1 = 1 ∧
    countEv (isCloseOf "fw1") (security_zones [(fw1, loadErrBehavior)]).1 = 0 := by
  constructor <;> rfl

/-- C1 amended: `close` is invoked exactly once per host on the two
non-error exit paths of the iteration (successful commit and
validation-false rollback); on an error raised after open — exemplified by
a load error — `close` is not invoked at all, and the session is left
open. -/
theorem C1_amended (each : Host) (b : HostBehavior)
    (ho : b.openErr = none) (hl : b.loadErr = none) (hd : b.diffErr = none)
    (hc : b.checkErr = none)
    (hcommit : b.checkResult = true → b.commitErr = none)
    (hroll : b.checkResult = false → b.rollbackErr = none) :
    countEv (isCloseOf each.name) (runHost each b).1 = 1 ∧
    (∀ (b2 : HostBehavior) (e : PyError), b2.openErr = none → b2.loadErr = some e →
      countEv (isCloseOf each.name) (runHost each b2).1 = 0) := by
  constructor
  · obtain ⟨oe, le, lc, de, dn, ce, cr, me, re, cle⟩ := b
    simp only at ho hl hd hc hcommit hroll
    subst ho; subst hl; subst hd; subst hc
    cases cr with
    | true =>
        have := hcommit rfl
        subst this
        cases dn <;> cases cle <;> simp [runHost, countEv, isCloseOf]
    | false =>
        have := hroll rfl
        subst this
        cases dn <;> cases cle <;> simp [runHost, countEv, isCloseOf]
  · intro b2 e h2o h2l
    obtain ⟨oe, le, lc, de, dn, ce, cr, me, re, cle⟩ := b2
    simp only at h2o h2l
    subst h2o; subst h2l
    simp [runHost, countEv, isCloseOf]

/-- C1 witness: a host on the rollback path closes its session exactly
once. -/
theorem C1_witness :
    countEv (isCloseOf "fw1") (runHost fw1 rolledBehavior).1 = 1 := by
  have h := C1_amended fw1 rolledBehavior rfl rfl rfl rfl (fun _ => rfl) (fun _ => rfl)
  simpa [fw1] using h.1

/-- C5 counterexample: a load error does not trigger any rollback attempt
and the session is never closed — the exception simply propagates uncaught
out of `security_zones` (there is no Failed/UnknownStateError surfacing in
the source), so the claim's error-path obligation is false. -/
theorem C5_counterexample :
    countEv (isRollbackOf "fw1") (security_zones [(fw1, loadErrBehavior)]).1 = 0 ∧
    countEv (isCloseOf "fw1") (security_zones [(fw1, loadErrBehavior)]).1 = 0 ∧
    (security_zones [(fw1, loadErrBehavior)]).2 =
      Outcome.uncaught (PyError.other 7) := by
  refine ⟨?_, ?_, ?_⟩ <;> rfl

/-- C5 amended: because `commit` is only reached after `commit_check`
returns true, an error raised during load or during validation leaves the
device's active configuration unchanged; but contrary to the claim, such
an error triggers no rollback attempt and no session close — the exception
propagates unchanged, with no Failed/UnknownStateError surfacing. -/
theorem C5_amended (each : Host) (b b2 : HostBehavior) (e e2 : PyError)
    (ho : b.openErr = none) (hl : b.loadErr = some e)
    (h2o : b2.openErr = none) (h2l : b2.loadErr = none) (h2d : b2.diffErr = none)
    (h2c : b2.checkErr = some e2) :
    (countEv (isRollbackOf each.name) (runHost each b).1 = 0 ∧
     countEv (isCloseOf each.name) (runHost each b).1 = 0 ∧
     (∀ (σ : String → DeviceState) (h' : String),
       (applyTrace σ (runHost each b).1 h').active = (σ h').active) ∧
     (runHost each b).2 = some e) ∧
    (countEv (isRollbackOf each.name) (runHost each b2).1 = 0 ∧
     countEv (isCloseOf each.name) (runHost each b2).1 = 0 ∧
     (∀ (σ : String → DeviceState) (h' : String),
       (applyTrace σ (runHost each b2).1 h').active = (σ h').active) ∧
     (runHost each b2).2 = some e2) := by
  have hmut1 : countEv isActiveMut (runHost each b).1 = 0 :=
    runHost_activeMut_count_zero each b (by simp [hl])
  have hmut2 : countEv isActiveMut (runHost each b2).1 = 0 :=
    runHost_activeMut_count_zero each b2 (by simp [h2c])
  constructor
  · refine ⟨?_, ?_, fun σ h' => applyTrace_active_of_count _ σ h' hmut1, ?_⟩ <;>
      · obtain ⟨oe, le, lc, de, dn, ce, cr, me, re, cle⟩ := b
        simp only at ho hl
        subst ho; subst hl
        simp [runHost, countEv, isRollbackOf, isCloseOf]
  · refine ⟨?_, ?_, fun σ h' => applyTrace_active_of_count _ σ h' hmut2, ?_⟩ <;>
      · obtain ⟨oe, le, lc, de, dn, ce, cr, me, re, cle⟩ := b2
        simp only at h2o h2l h2d h2c
        subst h2o; subst h2l; subst h2d; subst h2c
        cases dn <;> simp [runHost, countEv, isRollbackOf, isCloseOf]

/-- C5 witness: the load-error and validation-error hosts both perform no
rollback. -/
theorem C5_witness :
    countEv (isRollbackOf "fw1") (runHost fw1 loadErrBehavior).1 = 0 ∧
    countEv (isRollbackOf "fw1") (runHost fw1 checkErrBehavior).1 = 0 := by
  have h := C5_amended fw1 loadErrBehavior checkErrBehavior
    (PyError.other 7) (PyError.other 9) rfl rfl rfl rfl rfl rfl
  exact ⟨by simpa [fw1] using h.1.1, by simpa [fw1] using h.2.1⟩

/-- C8 counterexample: a commit error (outside the `except` tuple) aborts
the run without ever being reported via `_print_error` — the claim that
every fatal error kind is reported before the run aborts is false. -/
theorem C8_counterexample :
    countEv isReport (security_zones [(fw1, commitErrBehavior)]).1 = 0 ∧
    (security_zones [(fw1, commitErrBehavior)]).2 =
      Outcome.uncaught (PyError.other 11) := by
  constructor <;> rfl

/-- C8 amended: when a host's iteration raises, the error is reported via
`_print_error` exactly when it is one of the connection errors of the
`except` tuple (and the run then ends in a bare SystemExit); any other
fatal error — load, commit, or unknown-state — propagates uncaught with no
report at all. -/
theorem C8_amended (h : Host) (b : HostBehavior) (rest : List (Host × HostBehavior))
    (e : PyError) (herr : (runHost h b).2 = some e) :
    (e.isConn = true →
      countEv isReport (security_zones ((h, b) :: rest)).1 = 1 ∧
      (security_zones ((h, b) :: rest)).2 = Outcome.systemExit none e) ∧
    (e.isConn = false →
      countEv isReport (security_zones ((h, b) :: rest)).1 = 0 ∧
      (security_zones ((h, b) :: rest)).2 = Outcome.uncaught e) := by
  constructor
  · intro hc
    have hrw := runFleet_cons_conn runHost h b rest e herr hc
    rw [security_zones, hrw]
    refine ⟨?_, rfl⟩
    rw [countEv_append, runHost_no_report h b]
    rfl
  · intro hc
    have hrw := runFleet_cons_uncaught runHost h b rest e herr hc
    rw [security_zones, hrw]
    exact ⟨runHost_no_report h b, rfl⟩

/-- C8 witness: an unreachable host is reported exactly once, and a
commit-error host is never reported. -/
theorem C8_witness :
    countEv isReport (security_zones [(fw1, unreachableBehavior)]).1 = 1 ∧
    countEv isReport (security_zones [(fw2, commitErrBehavior)]).1 = 0 := by
  have h1 := C8_amended fw1 unreachableBehavior []
    (PyError.connect ConnKind.unreachable) rfl
  have h2 := C8_amended fw2 commitErrBehavior [] (PyError.other 11) rfl
  exact ⟨(h1.1 rfl).1, (h2.2 rfl).1⟩

/-- A fleet run distributes over a block of hosts whose iterations all
succeed: their traces are concatenated in inventory order and the run
continues with the remaining hosts. -/
theorem security_zones_append (pre tail : List (Host × HostBehavior))
    (hpre : ∀ p ∈ pre, (runHost p.1 p.2).2 = none) :
    security_zones (pre ++ tail) =
      ((pre.map fun p => (runHost p.1 p.2).1).flatten ++ (security_zones tail).1,
       (security_zones tail).2) := by
  induction pre with
  | nil => simp
  | cons q tl ih =>
      rcases q with ⟨qh, qb⟩
      have h1 : (runHost qh qb).2 = none := hpre ⟨qh, qb⟩ (List.mem_cons_self _ _)
      have h2 : ∀ p ∈ tl, (runHost p.1 p.2).2 = none :=
        fun p hp => hpre p (List.mem_cons_of_mem _ hp)
      have hcons := runFleet_cons_ok runHost qh qb (tl ++ tail) h1
      calc security_zones ((⟨qh, qb⟩ :: tl) ++ tail)
          = ((runHost qh qb).1 ++ (security_zones (tl ++ tail)).1,
             (security_zones (tl ++ tail)).2) := hcons
        _ = ((((⟨qh, qb⟩ :: tl).map fun p => (runHost p.1 p.2).1).flatten ++
              (security_zones tail).1, (security_zones tail).2)) := by
            rw [ih h2]
            simp [List.append_assoc]

/-- Each error-free iteration contributes exactly one `open` call. -/
theorem join_open_count (pre : List (Host × HostBehavior)) :
    countEv isAnyOpen ((pre.map fun p => (runHost p.1 p.2).1).flatten) = pre.length := by
  induction pre with
  | nil => rfl
  | cons q tl ih =>
      simp only [List.map_cons, List.flatten_cons, countEv_append, ih,
        runHost_open_count, List.length_cons]
      omega

/-- C4 counterexample (Scenario A): fw1's open raises `unreachable`; fw2
is indeed never contacted and the cause is reported, but the run
terminates through a bare `SystemExit`, whose process exit status is 0 —
the claim's "non-zero exit signal" is false. -/
theorem C4_counterexample :
    (security_zones [(fw1, unreachableBehavior), (fw2, okBehavior)]).1 =
      [Event.openEv "fw1", Event.reportEv] ∧
    (security_zones [(fw1, unreachableBehavior), (fw2, okBehavior)]).2 =
      Outcome.systemExit none (PyError.connect ConnKind.unreachable) ∧
    processExitCode (security_zones [(fw1, unreachableBehavior), (fw2, okBehavior)]).2 =
      0 := by
  refine ⟨rfl, rfl, rfl⟩

/-- C4 amended: when a host's open raises a connection error (after any
block of error-free hosts), the run aborts immediately — the trace ends at
that host's `open` plus the error report, exactly one `open` beyond the
completed hosts happens (so the remaining hosts are never contacted), the
cause is carried by the `SystemExit` outcome — but the process exit status
is 0 (a bare `raise SystemExit` has code `None`), not non-zero. -/
theorem C4_amended (pre : List (Host × HostBehavior)) (h : Host) (b : HostBehavior)
    (rest : List (Host × HostBehavior)) (e : PyError)
    (hpre : ∀ p ∈ pre, (runHost p.1 p.2).2 = none)
    (hopen : b.openErr = some e) (hconn : e.isConn = true) :
    (security_zones (pre ++ (h, b) :: rest)).1 =
      (pre.map fun p => (runHost p.1 p.2).1).flatten ++
        [Event.openEv h.name, Event.reportEv] ∧
    (security_zones (pre ++ (h, b) :: rest)).2 = Outcome.systemExit none e ∧
    countEv isAnyOpen (security_zones (pre ++ (h, b) :: rest)).1 = pre.length + 1 ∧
    processExitCode (security_zones (pre ++ (h, b) :: rest)).2 = 0 := by
  have hhb : runHost h b = ([Event.openEv h.name], some e) := by
    simp [runHost, hopen]
  have hcons := runFleet_cons_conn runHost h b rest e (by rw [hhb]) hconn
  have htail : security_zones ((h, b) :: rest) =
      ([Event.openEv h.name, Event.reportEv], Outcome.systemExit none e) := by
    rw [security_zones, hcons, hhb]
    rfl
  have happ := security_zones_append pre ((h, b) :: rest) hpre
  rw [happ, htail]
  refine ⟨rfl, rfl, ?_, rfl⟩
  rw [countEv_append, join_open_count]
  rfl

/-- C4 witness: Scenario A through the amended theorem. -/
theorem C4_witness :
    (security_zones ([] ++ (fw1, unreachableBehavior) :: [(fw2, okBehavior)])).2 =
      Outcome.systemExit none (PyError.connect ConnKind.unreachable) := by
  have h := C4_amended [] fw1 unreachableBehavior [(fw2, okBehavior)]
    (PyError.connect ConnKind.unreachable) (by simp) rfl rfl
  exact h.2.1

/-- One `get_status` iteration performs no configuration operation. -/
theorem getStatusHost_no_config (h : Host) (b : HostBehavior) :
    ∀ ev ∈ (getStatusHost h b).1, isConfigOp ev = false := by
  intro ev hev
  rcases hob : b.openErr with _ | e1
  · rcases hcb : b.closeErr with _ | e2 <;>
      · simp [getStatusHost, hob, hcb] at hev
        rcases hev with rfl | rfl | rfl <;> rfl
  · simp [getStatusHost, hob] at hev
    subst hev
    rfl

/-- A whole `get_status` run performs no configuration operation. -/
theorem get_status_no_config (inv : List (Host × HostBehavior)) :
    ∀ ev ∈ (get_status inv).1, isConfigOp ev = false := by
  induction inv with
  | nil => intro ev hev; simp [get_status, runFleet] at hev
  | cons q tl ih =>
      rcases q with ⟨h, b⟩
      intro ev hev
      rcases herr : (getStatusHost h b).2 with _ | e
      · rw [get_status, runFleet_cons_ok getStatusHost h b tl herr] at hev
        simp only [List.mem_append] at hev
        rcases hev with hev | hev
        · exact getStatusHost_no_config h b ev hev
        · exact ih ev hev
      · cases hc : e.isConn with
        | false =>
            rw [get_status, runFleet_cons_uncaught getStatusHost h b tl e herr hc] at hev
            exact getStatusHost_no_config h b ev hev
        | true =>
            rw [get_status, runFleet_cons_conn getStatusHost h b tl e herr hc] at hev
            simp only [List.mem_append, List.mem_singleton] at hev
            rcases hev with hev | rfl
            · exact getStatusHost_no_config h b ev hev
            · rfl

/-- C10: `get_status` (firewall.py lines 94-116) is purely observational:
whatever the inventory and device behaviors, its trace contains no load,
commit or rollback call, and therefore every device's configuration state
— active and candidate alike — is exactly what it was before the run. -/
theorem C10_theorem (inv : List (Host × HostBehavior)) (σ : String → DeviceState) :
    countEv isConfigOp (get_status inv).1 = 0 ∧
    applyTrace σ (get_status inv).1 = σ := by
  have hno := get_status_no_config inv
  constructor
  · simp only [countEv, List.length_eq_zero, List.filter_eq_nil_iff]
    intro a ha
    simp [hno a ha]
  · exact applyTrace_id _ _ hno
